import Mathlib

/-!
Shallow embedding of `gridfs-locking-stream` (src/index.js) and proofs about it.

The module coordinates a distributed lock (gridfs-locks, external) with
GridFS byte-streams (gridfs-stream, external).  We embed:

* the synchronous validation/mutation prefixes of `createWriteStream`,
  `createReadStream`, `remove` and `exist` (throw vs. async callback);
* the event-driven acquisition outcome handling (`locked` / `timed-out` /
  `error`) as functions from the externally decided outcome to the trace of
  actions and the callback arguments;
* the terminal-event release logic of write and read sessions as small state
  machines over event interleavings;
* the lazy `_locks` (LockCollection) caching as a state machine over
  call/ready/error event sequences;
* `tryParseObjectId` and identifier normalization.

External collaborators (the lock service and the byte-stream) are modelled at
their interface, as the spec prescribes: acquisition outcomes, `heldLock`,
release round-trips, and stream destruction are parameters or explicit state.
-/

namespace GridFSLockingStream

/-- A canonical ObjectID (mongo's 12-byte id), abstracted as its hex string. -/
structure ObjectID where
  hex : String
deriving DecidableEq, Repr

/-- A caller-supplied file identifier: either already canonical or a raw
string form. -/
inductive FileId where
  | oid (o : ObjectID)
  | str (s : String)
deriving DecidableEq, Repr

/-- JavaScript truthiness of an identifier value: an object is truthy, a
string is truthy iff nonempty. -/
def FileId.truthy : FileId → Bool
  | .oid _ => true
  | .str s => s ≠ ""

/-- Truthiness of `options._id` (`none` is `undefined`). -/
def idTruthy : Option FileId → Bool
  | none => false
  | some f => f.truthy

/-- Errors that the layer throws or passes to callbacks. -/
inductive JsError where
  | noId
  | rootMismatch (given bound : String)
  | lockErr (code : Nat)
  | storeErr (code : Nat)
  | streamDestroyed
deriving DecidableEq, Repr

/-- The mongo driver surface used by the layer: the (possibly throwing)
`ObjectID` constructor and the id generated by `new ObjectID` for new files. -/
structure Mongo where
  objectIdCtor : FileId → Except JsError ObjectID
  freshObjectID : ObjectID

/-- The caller-supplied options bag.  `rest` stands for every other
caller-visible field, carried opaquely. -/
structure Options where
  _id : Option FileId
  root : Option String
  rest : List (String × String)
deriving DecidableEq, Repr

/-- A `Grid` instance: `root` is bound at construction; `_locks` records
whether the LockCollection channel is already cached on the instance. -/
structure Grid where
  mongo : Mongo
  root : String
  _locks : Bool

/-- `Grid.prototype.tryParseObjectId` (src/index.js:327-334): wraps the
ObjectID constructor in try/catch, returning `false` (here `none`) on any
exception instead of propagating it. -/
def Grid.tryParseObjectId (g : Grid) (f : FileId) : Option ObjectID :=
  match g.mongo.objectIdCtor f with
  | .ok o => some o
  | .error _ => none

/-- `self.tryParseObjectId(options._id) || options._id` (src/index.js:270 and
:314): the normalized id when parsing succeeds, the original value otherwise. -/
def normalizeId (g : Grid) (f : FileId) : FileId :=
  match g.tryParseObjectId f with
  | some o => .oid o
  | none => f

/-- The root-mismatch guard `options.root && self.root !== options.root`
(src/index.js:127-129, 210-212, 289-291).  `some e` means the guard throws. -/
def rootMismatchCheck (g : Grid) (o : Options) : Option JsError :=
  match o.root with
  | none => none
  | some s => if s ≠ "" ∧ s ≠ g.root then some (.rootMismatch s g.root) else none

/-- Outcome of one lock acquisition attempt, decided by the external lock
service: exactly one of `locked`, `timed-out`, `error` fires. -/
inductive AcquireOutcome where
  | locked (l : Nat)
  | timedOut
  | lockError (e : JsError)
deriving DecidableEq, Repr

/-- Outcome of one LockCollection construction, decided externally:
its `ready` or `error` event. -/
inductive InitOutcome where
  | ready
  | failed (e : JsError)
deriving DecidableEq, Repr

/-- Observable actions of a stream-opening call. -/
inductive WAct where
  | mkLockCollection
  | mkStream
deriving DecidableEq, Repr

/-- The three arguments the open callback is invoked with:
`callback(error, stream, lockInfo)`.  `stream = some ()` means a stream
object was handed out; `none` is JS `null`/`undefined`. -/
structure StreamCb where
  error : Option JsError
  stream : Option Unit
  lockInfo : Option Nat
deriving DecidableEq, Repr

/-- The `obtainWriteLock` event handlers of `lockAndWrite`
(src/index.js:76-119): `locked` builds a GridWriteStream and calls back with
it, `timed-out` calls back `(null, null)`, `error` calls back `(err)`. -/
def lockAndWrite (acq : AcquireOutcome) : List WAct × StreamCb :=
  match acq with
  | .locked l => ([.mkStream], ⟨none, some (), some l⟩)
  | .timedOut => ([], ⟨none, none, none⟩)
  | .lockError e => ([], ⟨some e, none, none⟩)

/-- The `obtainReadLock` event handlers of `lockAndRead`
(src/index.js:154-204): same callback discipline as the write path, building
a GridReadStream instead. -/
def lockAndRead (acq : AcquireOutcome) : List WAct × StreamCb :=
  match acq with
  | .locked l => ([.mkStream], ⟨none, some (), some l⟩)
  | .timedOut => ([], ⟨none, none, none⟩)
  | .lockError e => ([], ⟨some e, none, none⟩)

/-- Lines 122-125 of `createWriteStream`: `if (!options._id) options._id =
new self.mongo.ObjectID` — generate a fresh id for a new file. -/
def fillId (g : Grid) (o : Options) : Options :=
  if idTruthy o._id then o
  else { o with _id := some (.oid g.mongo.freshObjectID) }

/-- `options.root = self.root` (src/index.js:131, 214, 292). -/
def setRoot (g : Grid) (o : Options) : Options :=
  { o with root := some g.root }

/-- `Grid.prototype.createWriteStream` (src/index.js:72-141).  A thrown
contract violation is `.error`; otherwise the result carries the mutated
options, the action trace and the callback arguments.  `initRes` is the
outcome of the LockCollection construction (used only when `_locks` is not
yet cached), `acq` the outcome of the acquisition attempt. -/
def Grid.createWriteStream (g : Grid) (o : Options) (initRes : InitOutcome)
    (acq : AcquireOutcome) : Except JsError (Options × List WAct × StreamCb) :=
  match rootMismatchCheck g (fillId g o) with
  | some e => .error e
  | none =>
    if g._locks then
      .ok (setRoot g (fillId g o), lockAndWrite acq)
    else
      match initRes with
      | .ready =>
        .ok (setRoot g (fillId g o),
          .mkLockCollection :: (lockAndWrite acq).1, (lockAndWrite acq).2)
      | .failed e =>
        .ok (setRoot g (fillId g o), [.mkLockCollection], ⟨some e, none, none⟩)

/-- `Grid.prototype.createReadStream` (src/index.js:151-224): throws when
`options._id` is falsy, then the same shape as the write path. -/
def Grid.createReadStream (g : Grid) (o : Options) (initRes : InitOutcome)
    (acq : AcquireOutcome) : Except JsError (Options × List WAct × StreamCb) :=
  if idTruthy o._id = false then .error .noId
  else
    match rootMismatchCheck g o with
    | some e => .error e
    | none =>
      if g._locks then
        .ok (setRoot g o, lockAndRead acq)
      else
        match initRes with
        | .ready =>
          .ok (setRoot g o,
            .mkLockCollection :: (lockAndRead acq).1, (lockAndRead acq).2)
        | .failed e =>
          .ok (setRoot g o, [.mkLockCollection], ⟨some e, none, none⟩)

/-- Observable events of a `remove` call, in order. -/
inductive REvent where
  | mkLockCollection
  | unlinkCall (id : FileId)
  | releaseLock
  | removeLockCall
  | removedSignal
  | cb (error : Option JsError) (result : Option Bool)
deriving DecidableEq, Repr

/-- The `lockAndRemove` closure (src/index.js:272-287): on `locked`, unlink
the file with the normalized id `uid`; on unlink error release the lock and
call back the error; on unlink success remove the lock record and call back
`(null, true)` once `removed` fires.  `timed-out` calls back `(null, null)`,
`error` calls back the error. -/
def lockAndRemove (uid : FileId) (acq : AcquireOutcome)
    (unlinkRes : Except JsError Unit) : List REvent :=
  match acq with
  | .locked _ =>
    match unlinkRes with
    | .error e => [.unlinkCall uid, .releaseLock, .cb (some e) none]
    | .ok _ => [.unlinkCall uid, .removeLockCall, .removedSignal, .cb none (some true)]
  | .timedOut => [.cb none none]
  | .lockError e => [.cb (some e) none]

/-- `Grid.prototype.remove` (src/index.js:264-302): throws on falsy `_id`,
normalizes the id, throws on root mismatch, then runs `lockAndRemove`
(after LockCollection construction when `_locks` is not cached). -/
def Grid.remove (g : Grid) (o : Options) (initRes : InitOutcome)
    (acq : AcquireOutcome) (unlinkRes : Except JsError Unit) :
    Except JsError (Options × List REvent) :=
  if idTruthy o._id = false then .error .noId
  else
    match rootMismatchCheck g o with
    | some e => .error e
    | none =>
      if g._locks then
        .ok (setRoot g o,
          lockAndRemove (normalizeId g (o._id.getD (.str ""))) acq unlinkRes)
      else
        match initRes with
        | .ready =>
          .ok (setRoot g o, .mkLockCollection ::
            lockAndRemove (normalizeId g (o._id.getD (.str ""))) acq unlinkRes)
        | .failed e =>
          .ok (setRoot g o, [.mkLockCollection, .cb (some e) none])

/-- `Grid.prototype.exist` (src/index.js:311-317): never throws; forwards
`undefined` when `options._id` is falsy, otherwise the normalized (or
original) identifier, to `GridStore.exist`. -/
def Grid.exist (g : Grid) (o : Options) : Except JsError (Option FileId) :=
  match o._id with
  | none => .ok none
  | some f => if f.truthy then .ok (some (normalizeId g f)) else .ok none

/-! ## Terminal-event release machinery (write and read sessions)

The lock service is external: `lock.heldLock` stays `true` from `locked`
until the release round-trip completes (`released`) or the TTL expires
(`expired`) — release is one of the spec's asynchronous suspension points.
We model a session as a state machine over the interleaving of the stream's
terminal events with those two external lock events, counting `releaseLock`
invocations made by the terminal-event listeners. -/

/-- A stream terminal event: `error`, `close`, or (read streams only) `end`. -/
inductive TermEvent where
  | errEv
  | closeEv
  | endEv
deriving DecidableEq, Repr

/-- One step of a session run: a stream terminal event, or the external lock
service completing a release (`released`, `heldLock := false`) or expiring
the lock (`expired`, `heldLock := false`). -/
inductive SessEvent where
  | term (t : TermEvent)
  | lockReleased
  | lockExpired
deriving DecidableEq, Repr

/-- Read-session listener state: the external `lock.heldLock` flag, the
`releasePending` latch of the `tryReleaseLock` closure
(src/index.js:159-169), and counters of `releaseLock` calls and warnings. -/
structure ReadSess where
  heldLock : Bool
  releasePending : Bool
  releaseCalls : Nat
  warns : Nat
deriving DecidableEq, Repr

/-- The `tryReleaseLock` closure (src/index.js:159-169): release only when
the lock is held and no release is pending; warn when the lock is gone. -/
def tryReleaseLock (s : ReadSess) : ReadSess :=
  if s.heldLock && !s.releasePending then
    { s with releasePending := true, releaseCalls := s.releaseCalls + 1 }
  else if !s.heldLock then
    { s with warns := s.warns + 1 }
  else s

/-- Read-session step: all three terminal listeners call the shared
`tryReleaseLock` (src/index.js:187-189); lock events update `heldLock`. -/
def readStep (s : ReadSess) : SessEvent → ReadSess
  | .term _ => tryReleaseLock s
  | .lockReleased => { s with heldLock := false }
  | .lockExpired => { s with heldLock := false }

/-- Run a read session over an event interleaving. -/
def readRun (s : ReadSess) (evs : List SessEvent) : ReadSess :=
  evs.foldl readStep s

/-- Read-session state right after `locked`: lock held, nothing pending. -/
def readSessInit : ReadSess := ⟨true, false, 0, 0⟩

/-- Write-session listener state (src/index.js:97-107): no pending latch. -/
structure WriteSess where
  heldLock : Bool
  releaseCalls : Nat
  warns : Nat
deriving DecidableEq, Repr

/-- Write-session step: the `error` listener releases whenever `heldLock`;
the `close` listener releases whenever `heldLock`, else warns; the write
stream has no `end` listener (src/index.js:97-107). -/
def writeStep (s : WriteSess) : SessEvent → WriteSess
  | .term .errEv =>
    if s.heldLock then { s with releaseCalls := s.releaseCalls + 1 } else s
  | .term .closeEv =>
    if s.heldLock then { s with releaseCalls := s.releaseCalls + 1 }
    else { s with warns := s.warns + 1 }
  | .term .endEv => s
  | .lockReleased => { s with heldLock := false }
  | .lockExpired => { s with heldLock := false }

/-- Run a write session over an event interleaving. -/
def writeRun (s : WriteSess) (evs : List SessEvent) : WriteSess :=
  evs.foldl writeStep s

/-- Write-session state right after `locked`. -/
def writeSessInit : WriteSess := ⟨true, 0, 0⟩

/-! ## Lazy LockCollection caching (src/index.js:50-63, 133-140, 216-223,
294-301) -/

/-- Registry state of one `Grid` instance: whether `self._locks` is cached,
and how many `LockCollection(...)` constructions have happened. -/
structure RegState where
  locksSet : Bool
  mkCount : Nat
deriving DecidableEq, Repr

/-- Registry events: an entry-point call arrives (`createWriteStream`,
`createReadStream` or `remove`); an in-flight construction signals `ready`
(caching `self._locks`, src/index.js:54-58); or it signals `error`
(caching nothing, src/index.js:59-62). -/
inductive RegEvent where
  | call
  | ready
  | fail
deriving DecidableEq, Repr

/-- One registry step: a call constructs a LockCollection exactly when
`self._locks` is not yet cached (the `if (!self._locks)` guard,
src/index.js:133-140); `ready` caches the channel; `error` caches nothing. -/
def regStep (s : RegState) : RegEvent → RegState
  | .call => if s.locksSet then s else { s with mkCount := s.mkCount + 1 }
  | .ready => { s with locksSet := true }
  | .fail => s

/-- Run the registry over a sequence of events. -/
def regRun (s : RegState) (evs : List RegEvent) : RegState :=
  evs.foldl regStep s

/-- A fresh `Grid`: no channel cached, nothing constructed. -/
def regInit : RegState := ⟨false, 0⟩

/-- Count of `call` events that arrive while the channel is uncached
(tracking the cache through `ready` events). -/
def uncachedCalls : Bool → List RegEvent → Nat
  | _, [] => 0
  | cached, e :: rest =>
    match e with
    | .call => (if cached then 0 else 1) + uncachedCalls cached rest
    | .ready => uncachedCalls true rest
    | .fail => uncachedCalls cached rest

/-! ## Lock expiry handler (src/index.js:110 and 192-195) -/

/-- The byte-stream as the sessions observe it: whether `destroy()` has been
called, and the events emitted to its observers. -/
structure SessStream where
  destroyed : Bool
  emitted : List String
deriving DecidableEq, Repr

/-- `stream.destroy()`. -/
def SessStream.destroy (s : SessStream) : SessStream :=
  { s with destroyed := true }

/-- `stream.emit(e)`. -/
def SessStream.emit (s : SessStream) (e : String) : SessStream :=
  { s with emitted := s.emitted ++ [e] }

/-- Modelled from the spec: the byte-stream itself lives in gridfs-stream,
an external collaborator; per the store contract and section 4.3, a
destroyed/aborted stream rejects any further write. -/
def SessStream.tryWrite (s : SessStream) : Except JsError SessStream :=
  if s.destroyed then .error .streamDestroyed else .ok s

/-- Modelled from the spec: a destroyed stream likewise yields no further
bytes on read. -/
def SessStream.tryRead (s : SessStream) : Except JsError SessStream :=
  if s.destroyed then .error .streamDestroyed else .ok s

/-- The `expired` handler both sessions register
(`lock.on('expired', function () { stream.destroy(); stream.emit('expired'); })`,
src/index.js:110 and 192-195): destroy first, then notify observers. -/
def onExpired (s : SessStream) : SessStream :=
  (s.destroy).emit "expired"

/-! ## Spec-side predicate and sample instances -/

/-- The spec's wording of a root contract violation: `options.root` is
supplied (truthy) and differs from the Grid's bound root.  Stated from the
spec's words, to be compared with the guard `rootMismatchCheck` translated
from the source. -/
def rootConflict (g : Grid) (o : Options) : Bool :=
  match o.root with
  | none => false
  | some s => decide (s ≠ "") && decide (s ≠ g.root)

/-- A concrete ObjectID, used to instantiate theorems. -/
def oidA : ObjectID := ⟨"a1b2"⟩

/-- A concrete mongo driver: canonical ids parse to themselves, raw strings
fail to parse (the constructor throws). -/
def mongo0 : Mongo :=
  ⟨fun f => match f with | .oid o => .ok o | .str _ => .error (.storeErr 7), oidA⟩

/-- A `Grid` with the LockCollection already cached. -/
def grid0 : Grid := ⟨mongo0, "fs", true⟩

/-- A `Grid` whose LockCollection is not yet cached. -/
def gridNL : Grid := ⟨mongo0, "fs", false⟩

/-- Options with a canonical `_id` and one extra caller field. -/
def opts0 : Options := ⟨some (.oid ⟨"c3d4"⟩), none, [("k", "v")]⟩

/-- Options with no `_id` at all. -/
def opts1 : Options := ⟨none, none, []⟩

/-- Options with a raw-string `_id` (unparseable under `mongo0`). -/
def optsS : Options := ⟨some (.str "name.txt"), none, []⟩

/-! ## Helper lemmas -/

/-- One read-session step preserves the latch invariant: the number of
`releaseLock` calls made so far is 1 when `releasePending` is set and 0
otherwise. -/
theorem readStep_inv (s : ReadSess) (e : SessEvent)
    (h : s.releaseCalls = if s.releasePending then 1 else 0) :
    (readStep s e).releaseCalls =
      if (readStep s e).releasePending then 1 else 0 := by
  cases e with
  | term t =>
    simp only [readStep, tryReleaseLock]
    by_cases h1 : s.heldLock && !s.releasePending
    · rcases Bool.and_eq_true_iff.mp h1 with ⟨hh, h2⟩
      have hp : s.releasePending = false := by simpa using h2
      simp [h1, hh, hp] at h ⊢
      omega
    · simp only [h1, if_false, Bool.false_eq_true]
      by_cases h2 : !s.heldLock
      · simp [h2, h]
      · simp [h2, h]
  | lockReleased => simpa [readStep] using h
  | lockExpired => simpa [readStep] using h

/-- The latch invariant holds along any read-session run. -/
theorem readRun_inv (evs : List SessEvent) :
    ∀ s : ReadSess, s.releaseCalls = (if s.releasePending then 1 else 0) →
      (readRun s evs).releaseCalls =
        if (readRun s evs).releasePending then 1 else 0 := by
  induction evs with
  | nil => intro s h; simpa [readRun] using h
  | cons e rest ih =>
    intro s h
    have hstep : readRun s (e :: rest) = readRun (readStep s e) rest := rfl
    rw [hstep]
    exact ih (readStep s e) (readStep_inv s e h)

/-- `mkCount` along a registry run equals the starting count plus the number
of calls that arrive while the channel is uncached. -/
theorem regRun_mkCount (evs : List RegEvent) :
    ∀ s : RegState,
      (regRun s evs).mkCount = s.mkCount + uncachedCalls s.locksSet evs := by
  induction evs with
  | nil => intro s; simp [regRun, uncachedCalls]
  | cons e rest ih =>
    intro s
    have hstep : regRun s (e :: rest) = regRun (regStep s e) rest := rfl
    rw [hstep]
    cases e with
    | call =>
      by_cases h : s.locksSet
      · have : regStep s .call = s := by simp [regStep, h]
        rw [this, ih s]
        simp [uncachedCalls, h]
      · have hs : regStep s .call = { s with mkCount := s.mkCount + 1 } := by
          simp [regStep, h]
        rw [hs, ih]
        simp [uncachedCalls, h]
        omega
    | ready =>
      have hs : regStep s .ready = { s with locksSet := true } := rfl
      rw [hs, ih]
      simp [uncachedCalls]
    | fail =>
      have hs : regStep s .fail = s := rfl
      rw [hs, ih s]
      simp [uncachedCalls]

/-- `fillId` only touches `_id`, so the root guard is unaffected. -/
theorem rootMismatchCheck_fillId (g : Grid) (o : Options) :
    rootMismatchCheck g (fillId g o) = rootMismatchCheck g o := by
  unfold fillId
  split <;> rfl

/-- The spec-side `rootConflict` predicate coincides with the source's
guard firing. -/
theorem rootConflict_isSome (g : Grid) (o : Options) :
    rootConflict g o = (rootMismatchCheck g o).isSome := by
  unfold rootConflict rootMismatchCheck
  cases o.root with
  | none => rfl
  | some s =>
    by_cases h : s ≠ "" ∧ s ≠ g.root
    · simp [h, h.1, h.2]
    · rcases not_and_or.mp h with h1 | h1 <;> simp [h, h1]

/-- `createWriteStream` throws exactly on a root conflict. -/
theorem createWriteStream_error_iff (g : Grid) (o : Options)
    (initRes : InitOutcome) (acq : AcquireOutcome) :
    (∃ e, g.createWriteStream o initRes acq = .error e) ↔
      rootConflict g o = true := by
  rw [rootConflict_isSome]
  unfold Grid.createWriteStream
  rw [rootMismatchCheck_fillId]
  cases hr : rootMismatchCheck g o with
  | some e => simp
  | none =>
    cases hl : g._locks <;> cases initRes <;> simp [hl]

/-- `createReadStream` throws exactly on a falsy `_id` or a root conflict. -/
theorem createReadStream_error_iff (g : Grid) (o : Options)
    (initRes : InitOutcome) (acq : AcquireOutcome) :
    (∃ e, g.createReadStream o initRes acq = .error e) ↔
      (idTruthy o._id = false ∨ rootConflict g o = true) := by
  rw [rootConflict_isSome]
  unfold Grid.createReadStream
  by_cases hid : idTruthy o._id = false
  · simp [hid]
  · rw [if_neg hid]
    cases hr : rootMismatchCheck g o with
    | some e => simp [hid]
    | none =>
      cases hl : g._locks <;> cases initRes <;> simp [hid, hl]

/-- `remove` throws exactly on a falsy `_id` or a root conflict. -/
theorem remove_error_iff (g : Grid) (o : Options) (initRes : InitOutcome)
    (acq : AcquireOutcome) (unlinkRes : Except JsError Unit) :
    (∃ e, g.remove o initRes acq unlinkRes = .error e) ↔
      (idTruthy o._id = false ∨ rootConflict g o = true) := by
  rw [rootConflict_isSome]
  unfold Grid.remove
  by_cases hid : idTruthy o._id = false
  · simp [hid]
  · rw [if_neg hid]
    cases hr : rootMismatchCheck g o with
    | some e => simp [hid]
    | none =>
      cases hl : g._locks <;> cases initRes <;> simp [hid, hl]

/-! ## Claim theorems -/

/-- C2, counterexample: the claim as stated quantifies over write sessions
too, but the write-session terminal listeners (src/index.js:97-107) have no
latch: when `error` and then `close` fire while the lock is still held
(release is an asynchronous round-trip, so `heldLock` stays true until
`released`), `releaseLock` is invoked twice, contradicting at most once. -/
theorem write_release_invoked_twice_cex :
    (writeRun writeSessInit
        [SessEvent.term TermEvent.errEv,
         SessEvent.term TermEvent.closeEv]).releaseCalls = 2 := by
  decide

/-- C2, amended: for every opened read session, the shared `tryReleaseLock`
latch makes the terminal-event listeners invoke `releaseLock` at most once,
over every interleaving of `error`, `close`, `end` with the lock events. -/
theorem read_release_at_most_once (evs : List SessEvent) :
    (readRun readSessInit evs).releaseCalls ≤ 1 := by
  have h := readRun_inv evs readSessInit (by simp [readSessInit])
  rw [h]
  split <;> simp

/-- C3, counterexample: two operation calls arriving before the first
LockCollection initialization signals ready each take the `!self._locks`
branch (src/index.js:133-140) and each construct a LockCollection, so two
are constructed, contradicting "no second LockCollection is constructed". -/
theorem lockCollection_duplicate_construction_cex :
    (regRun regInit [RegEvent.call, RegEvent.call]).mkCount = 2 := by
  decide

/-- C3, amended: a LockCollection is constructed once per operation call
that arrives while `self._locks` is uncached — concurrent calls before
readiness each construct their own; calls after a successful initialization
construct none; and an initialization error caches nothing, so a later call
retries. -/
theorem lockCollection_per_uncached_call :
    (∀ evs : List RegEvent,
      (regRun regInit evs).mkCount = uncachedCalls false evs) ∧
    (∀ s : RegState, regStep s .fail = s) := by
  constructor
  · intro evs
    simpa [regInit] using regRun_mkCount evs regInit
  · intro s
    rfl

/-- C4: contract violations fail by a synchronous throw (`.error`, which
carries no trace and no callback) and never via the async callback:
`createReadStream` and `remove` throw exactly when `options._id` is falsy
or a supplied `options.root` differs from the bound root, and
`createWriteStream` throws exactly on the root conflict. -/
theorem contract_violations_throw (g : Grid) (o : Options)
    (initRes : InitOutcome) (acq : AcquireOutcome)
    (unlinkRes : Except JsError Unit) :
    ((∃ e, g.createWriteStream o initRes acq = .error e) ↔
      rootConflict g o = true) ∧
    ((∃ e, g.createReadStream o initRes acq = .error e) ↔
      (idTruthy o._id = false ∨ rootConflict g o = true)) ∧
    ((∃ e, g.remove o initRes acq unlinkRes = .error e) ↔
      (idTruthy o._id = false ∨ rootConflict g o = true)) :=
  ⟨createWriteStream_error_iff g o initRes acq,
   createReadStream_error_iff g o initRes acq,
   remove_error_iff g o initRes acq unlinkRes⟩

/-- C4 witness: a mismatched root makes `createWriteStream` throw on the
concrete instance. -/
theorem contract_violations_throw_witness :
    rootConflict grid0 ⟨some (.oid oidA), some "other", []⟩ = true ∧
    (∃ e, grid0.createWriteStream ⟨some (.oid oidA), some "other", []⟩
      InitOutcome.ready (AcquireOutcome.locked 1) = .error e) :=
  ⟨rfl,
   (contract_violations_throw grid0 ⟨some (.oid oidA), some "other", []⟩
      InitOutcome.ready (AcquireOutcome.locked 1) (.ok ())).1.mpr rfl⟩

/-- C6: when the lock emits `expired`, the registered handler
(src/index.js:110, 192-195) destroys the stream and then emits `expired` to
the stream's observers, and no further write or read on the destroyed
stream succeeds. -/
theorem expired_destroys_stream_then_notifies (s : SessStream) :
    (onExpired s).destroyed = true ∧
    (onExpired s).emitted = s.emitted ++ ["expired"] ∧
    (onExpired s).tryWrite = .error .streamDestroyed ∧
    (onExpired s).tryRead = .error .streamDestroyed := by
  refine ⟨rfl, rfl, ?_, ?_⟩ <;>
    simp [onExpired, SessStream.tryWrite, SessStream.tryRead,
      SessStream.destroy, SessStream.emit]

/-- C8: `tryParseObjectId` returns the parsed ObjectID when the constructor
succeeds and `false` (here `none`) when it throws — never an exception —
and the normalized identifier used by `remove` (forwarded to `unlink`) and
`exist` is the parsed id on success and the original value on failure. -/
theorem tryParse_normalizes_with_fallback (g : Grid) (f : FileId) :
    (∀ o : ObjectID, g.mongo.objectIdCtor f = .ok o →
      g.tryParseObjectId f = some o ∧ normalizeId g f = .oid o) ∧
    (∀ e : JsError, g.mongo.objectIdCtor f = .error e →
      g.tryParseObjectId f = none ∧ normalizeId g f = f) ∧
    (∀ (opts : Options) (l : Nat)
        (unlinkRes : Except JsError Unit) (o2 : Options) (tr : List REvent),
      opts._id = some f → f.truthy = true →
      g.remove opts .ready (.locked l) unlinkRes = .ok (o2, tr) →
      REvent.unlinkCall (normalizeId g f) ∈ tr) := by
  refine ⟨?_, ?_, ?_⟩
  · intro o h
    simp [Grid.tryParseObjectId, normalizeId, h]
  · intro e h
    simp [Grid.tryParseObjectId, normalizeId, h]
  · intro opts l unlinkRes o2 tr hid htr h
    unfold Grid.remove at h
    rw [hid] at h
    simp only [idTruthy, htr] at h
    split at h
    · exact absurd h (by simp)
    · split at h
      · exact absurd h (by simp)
      · cases hg : g._locks <;> simp only [hg, Bool.false_eq_true, if_true,
          if_false, Except.ok.injEq, Prod.mk.injEq] at h <;>
        · rcases h with ⟨_, h2⟩
          subst h2
          cases unlinkRes <;> simp [lockAndRemove, Option.getD_some]

/-- C8 witness: a raw-string id fails to parse under `mongo0`, and `remove`
forwards the original value to `unlink`. -/
theorem tryParse_normalizes_with_fallback_witness :
    mongo0.objectIdCtor (FileId.str "name.txt") = .error (.storeErr 7) ∧
    grid0.tryParseObjectId (FileId.str "name.txt") = none ∧
    normalizeId grid0 (FileId.str "name.txt") = FileId.str "name.txt" :=
  ⟨rfl,
   ((tryParse_normalizes_with_fallback grid0 (FileId.str "name.txt")).2.1
      (.storeErr 7) rfl).1,
   ((tryParse_normalizes_with_fallback grid0 (FileId.str "name.txt")).2.1
      (.storeErr 7) rfl).2⟩

/-- C10: `exist` never throws on a missing `_id` — it forwards `undefined`
to the store's existence check — and with a truthy `_id` it forwards the
normalized (or, if unparseable, original) identifier. -/
theorem exist_forwards_optional_id (g : Grid) (opts : Options) :
    (idTruthy opts._id = false → g.exist opts = .ok none) ∧
    (∀ f : FileId, opts._id = some f → f.truthy = true →
      g.exist opts = .ok (some (normalizeId g f))) := by
  constructor
  · intro h
    cases hid : opts._id with
    | none => simp [Grid.exist, hid]
    | some f =>
      rw [hid] at h
      simp only [idTruthy] at h
      simp [Grid.exist, hid, h]
  · intro f hid htr
    simp [Grid.exist, hid, htr]

/-- C10 witness: `exist` with no `_id` succeeds with `undefined`, and with a
truthy unparseable `_id` succeeds with the original value. -/
theorem exist_forwards_optional_id_witness :
    idTruthy opts1._id = false ∧ grid0.exist opts1 = .ok none ∧
    (optsS._id = some (FileId.str "name.txt") ∧
      (FileId.str "name.txt").truthy = true ∧
      grid0.exist optsS = .ok (some (normalizeId grid0 (FileId.str "name.txt")))) :=
  ⟨rfl, (exist_forwards_optional_id grid0 opts1).1 rfl,
   rfl, rfl,
   (exist_forwards_optional_id grid0 optsS).2 (FileId.str "name.txt") rfl rfl⟩

/-- C7: the byte-stream object appears in the action trace exactly when the
acquisition was reached (LockCollection cached or initialization ready) and
resolved `locked`: no GridWriteStream or GridReadStream is constructed
outside the `locked` handler (src/index.js:76-79, 155-158). -/
theorem stream_created_only_when_locked (g : Grid) (o : Options)
    (initRes : InitOutcome) (acq : AcquireOutcome) (o2 : Options)
    (tr : List WAct) (cb : StreamCb) :
    (g.createWriteStream o initRes acq = .ok (o2, tr, cb) →
      (WAct.mkStream ∈ tr ↔
        ((g._locks = true ∨ initRes = .ready) ∧ ∃ l, acq = .locked l))) ∧
    (g.createReadStream o initRes acq = .ok (o2, tr, cb) →
      (WAct.mkStream ∈ tr ↔
        ((g._locks = true ∨ initRes = .ready) ∧ ∃ l, acq = .locked l))) := by
  constructor
  · intro h
    unfold Grid.createWriteStream at h
    rw [rootMismatchCheck_fillId] at h
    rcases hr : rootMismatchCheck g o with _ | e2 <;> rw [hr] at h <;>
      cases hl : g._locks <;> rw [hl] at h <;>
      cases initRes <;> cases acq <;>
      simp_all [lockAndWrite] <;>
      (obtain ⟨h1, h2, h3⟩ := h; subst h2; simp)
  · intro h
    unfold Grid.createReadStream at h
    by_cases hid : idTruthy o._id = false
    · rw [if_pos hid] at h
      exact absurd h (by simp)
    · rw [if_neg hid] at h
      rcases hr : rootMismatchCheck g o with _ | e2 <;> rw [hr] at h <;>
        cases hl : g._locks <;> rw [hl] at h <;>
        cases initRes <;> cases acq <;>
        simp_all [lockAndRead] <;>
        (obtain ⟨h1, h2, h3⟩ := h; subst h2; simp)

/-- C7 witness: a `locked` acquisition on the cached-channel grid builds the
stream. -/
theorem stream_created_only_when_locked_witness :
    grid0.createWriteStream opts0 InitOutcome.ready (AcquireOutcome.locked 5)
      = .ok (setRoot grid0 opts0, [WAct.mkStream], ⟨none, some (), some 5⟩) ∧
    (WAct.mkStream ∈ [WAct.mkStream] ↔
      ((grid0._locks = true ∨ InitOutcome.ready = InitOutcome.ready) ∧
        ∃ l, AcquireOutcome.locked 5 = AcquireOutcome.locked l)) :=
  ⟨rfl,
   (stream_created_only_when_locked grid0 opts0 InitOutcome.ready
      (AcquireOutcome.locked 5) (setRoot grid0 opts0) [WAct.mkStream]
      ⟨none, some (), some 5⟩).1 rfl⟩

/-- C9: the only caller-visible mutations of the options bag are
`options.root := self.root` (all three operations) and, for
`createWriteStream` with a falsy `_id`, a freshly generated ObjectID stored
in `options._id`; every other field (`rest`) is unchanged. -/
theorem options_mutation_frame (g : Grid) (o : Options)
    (initRes : InitOutcome) (acq : AcquireOutcome)
    (unlinkRes : Except JsError Unit) (o2 : Options) :
    (∀ tr cb, g.createWriteStream o initRes acq = .ok (o2, tr, cb) →
      o2.rest = o.rest ∧ o2.root = some g.root ∧
      (idTruthy o._id = true → o2._id = o._id) ∧
      (idTruthy o._id = false → o2._id = some (.oid g.mongo.freshObjectID))) ∧
    (∀ tr cb, g.createReadStream o initRes acq = .ok (o2, tr, cb) →
      o2.rest = o.rest ∧ o2.root = some g.root ∧ o2._id = o._id) ∧
    (∀ tr, g.remove o initRes acq unlinkRes = .ok (o2, tr) →
      o2.rest = o.rest ∧ o2.root = some g.root ∧ o2._id = o._id) := by
  refine ⟨?_, ?_, ?_⟩
  · intro tr cb h
    unfold Grid.createWriteStream at h
    rw [rootMismatchCheck_fillId] at h
    rcases hr : rootMismatchCheck g o with _ | e2 <;> rw [hr] at h <;>
      cases hid : idTruthy o._id <;>
      cases hl : g._locks <;> rw [hl] at h <;>
      cases initRes <;>
      simp_all [fillId, setRoot] <;>
      (obtain ⟨h1, h2⟩ := h; subst h1; simp)
  · intro tr cb h
    unfold Grid.createReadStream at h
    by_cases hid : idTruthy o._id = false
    · rw [if_pos hid] at h
      exact absurd h (by simp)
    · rw [if_neg hid] at h
      rcases hr : rootMismatchCheck g o with _ | e2 <;> rw [hr] at h <;>
        cases hl : g._locks <;> rw [hl] at h <;>
        cases initRes <;>
        simp_all [setRoot] <;>
        (obtain ⟨h1, h2⟩ := h; subst h1; simp)
  · intro tr h
    unfold Grid.remove at h
    by_cases hid : idTruthy o._id = false
    · rw [if_pos hid] at h
      exact absurd h (by simp)
    · rw [if_neg hid] at h
      rcases hr : rootMismatchCheck g o with _ | e2 <;> rw [hr] at h <;>
        cases hl : g._locks <;> rw [hl] at h <;>
        cases initRes <;>
        simp_all [setRoot] <;>
        (obtain ⟨h1, h2⟩ := h; subst h1; simp)

/-- C9 witness: with no caller `_id`, `createWriteStream` stores the fresh
ObjectID and binds the root; the extra field list is untouched. -/
theorem options_mutation_frame_witness :
    grid0.createWriteStream opts1 InitOutcome.ready (AcquireOutcome.locked 3)
      = .ok (setRoot grid0 (fillId grid0 opts1), [WAct.mkStream],
          ⟨none, some (), some 3⟩) ∧
    (setRoot grid0 (fillId grid0 opts1)).rest = opts1.rest ∧
    (setRoot grid0 (fillId grid0 opts1)).root = some grid0.root ∧
    (idTruthy opts1._id = false →
      (setRoot grid0 (fillId grid0 opts1))._id =
        some (.oid grid0.mongo.freshObjectID)) :=
  ⟨rfl,
   ((options_mutation_frame grid0 opts1 InitOutcome.ready
      (AcquireOutcome.locked 3) (.ok ())
      (setRoot grid0 (fillId grid0 opts1))).1 [WAct.mkStream]
      ⟨none, some (), some 3⟩ rfl).1,
   ((options_mutation_frame grid0 opts1 InitOutcome.ready
      (AcquireOutcome.locked 3) (.ok ())
      (setRoot grid0 (fillId grid0 opts1))).1 [WAct.mkStream]
      ⟨none, some (), some 3⟩ rfl).2.1,
   ((options_mutation_frame grid0 opts1 InitOutcome.ready
      (AcquireOutcome.locked 3) (.ok ())
      (setRoot grid0 (fillId grid0 opts1))).1 [WAct.mkStream]
      ⟨none, some (), some 3⟩ rfl).2.2.2⟩

/-- C5: once `remove` holds the write lock, a failed `unlink` releases the
lock (`releaseLock`, never `removeLock`) and propagates the error to the
callback, while a successful `unlink` calls `removeLock` (never
`releaseLock`) and invokes the callback with `(null, true)` only after the
`removed` signal. -/
theorem remove_release_vs_removeLock (g : Grid) (o : Options) (l : Nat)
    (e : JsError) (o2 : Options) (tr : List REvent) :
    (g.remove o .ready (.locked l) (.error e) = .ok (o2, tr) →
      REvent.releaseLock ∈ tr ∧ REvent.cb (some e) none ∈ tr ∧
      REvent.removeLockCall ∉ tr) ∧
    (g.remove o .ready (.locked l) (.ok ()) = .ok (o2, tr) →
      REvent.removeLockCall ∈ tr ∧ REvent.releaseLock ∉ tr ∧
      ∃ i j : Nat, i < j ∧ tr.get? i = some REvent.removedSignal ∧
        tr.get? j = some (REvent.cb none (some true))) := by
  constructor
  · intro h
    unfold Grid.remove at h
    by_cases hid : idTruthy o._id = false
    · rw [if_pos hid] at h
      exact absurd h (by simp)
    · rw [if_neg hid] at h
      rcases hr : rootMismatchCheck g o with _ | e2 <;> rw [hr] at h <;>
        cases hl : g._locks <;> rw [hl] at h <;>
        simp_all [lockAndRemove] <;>
        (obtain ⟨h1, h2⟩ := h; subst h2; simp)
  · intro h
    unfold Grid.remove at h
    by_cases hid : idTruthy o._id = false
    · rw [if_pos hid] at h
      exact absurd h (by simp)
    · rw [if_neg hid] at h
      rcases hr : rootMismatchCheck g o with _ | e2 <;> rw [hr] at h <;>
        cases hl : g._locks <;> rw [hl] at h <;>
        simp_all [lockAndRemove] <;>
        (obtain ⟨h1, h2⟩ := h; subst h2;
         first
         | exact ⟨by simp, by simp, 2, 3, by omega, rfl, rfl⟩
         | exact ⟨by simp, by simp, 3, 4, by omega, rfl, rfl⟩)

/-- C5 witness: a successful removal on the concrete grid removes the lock
record and confirms before the callback. -/
theorem remove_release_vs_removeLock_witness :
    grid0.remove opts0 .ready (.locked 2) (.ok ())
      = .ok (setRoot grid0 opts0,
          [.unlinkCall (normalizeId grid0 (FileId.oid ⟨"c3d4"⟩)),
           .removeLockCall, .removedSignal, .cb none (some true)]) ∧
    (REvent.removeLockCall ∈
        ([.unlinkCall (normalizeId grid0 (FileId.oid ⟨"c3d4"⟩)),
          .removeLockCall, .removedSignal, .cb none (some true)] : List REvent) ∧
      REvent.releaseLock ∉
        ([.unlinkCall (normalizeId grid0 (FileId.oid ⟨"c3d4"⟩)),
          .removeLockCall, .removedSignal, .cb none (some true)] : List REvent) ∧
      ∃ i j : Nat, i < j ∧
        ([.unlinkCall (normalizeId grid0 (FileId.oid ⟨"c3d4"⟩)),
          .removeLockCall, .removedSignal,
          .cb none (some true)] : List REvent).get? i
            = some REvent.removedSignal ∧
        ([.unlinkCall (normalizeId grid0 (FileId.oid ⟨"c3d4"⟩)),
          .removeLockCall, .removedSignal,
          .cb none (some true)] : List REvent).get? j
            = some (REvent.cb none (some true))) :=
  ⟨rfl,
   (remove_release_vs_removeLock grid0 opts0 2 JsError.noId
      (setRoot grid0 opts0)
      [.unlinkCall (normalizeId grid0 (FileId.oid ⟨"c3d4"⟩)),
       .removeLockCall, .removedSignal, .cb none (some true)]).2 rfl⟩

/-- C1: for each of the three operations, the callback carries a null error
and a null stream/result exactly when the acquisition was reached
(LockCollection cached or initialization ready) and resolved `timed-out`;
lock-service errors (acquisition or initialization) and store errors always
surface through the callback's error argument. -/
theorem null_null_iff_timedOut (g : Grid) (o : Options)
    (initRes : InitOutcome) (acq : AcquireOutcome)
    (unlinkRes : Except JsError Unit) :
    (∀ o2 tr cb, g.createWriteStream o initRes acq = .ok (o2, tr, cb) →
      ((cb.error = none ∧ cb.stream = none) ↔
        ((g._locks = true ∨ initRes = .ready) ∧ acq = .timedOut))) ∧
    (∀ o2 tr cb, g.createReadStream o initRes acq = .ok (o2, tr, cb) →
      ((cb.error = none ∧ cb.stream = none) ↔
        ((g._locks = true ∨ initRes = .ready) ∧ acq = .timedOut))) ∧
    (∀ o2 tr, g.remove o initRes acq unlinkRes = .ok (o2, tr) →
      (REvent.cb none none ∈ tr ↔
        ((g._locks = true ∨ initRes = .ready) ∧ acq = .timedOut))) := by
  refine ⟨?_, ?_, ?_⟩
  · intro o2 tr cb h
    unfold Grid.createWriteStream at h
    rw [rootMismatchCheck_fillId] at h
    rcases hr : rootMismatchCheck g o with _ | e2 <;> rw [hr] at h <;>
      cases hl : g._locks <;> rw [hl] at h <;>
      cases initRes <;> cases acq <;>
      simp_all [lockAndWrite] <;>
      (obtain ⟨h1, h2, h3⟩ := h; subst h3; simp)
  · intro o2 tr cb h
    unfold Grid.createReadStream at h
    by_cases hid : idTruthy o._id = false
    · rw [if_pos hid] at h
      exact absurd h (by simp)
    · rw [if_neg hid] at h
      rcases hr : rootMismatchCheck g o with _ | e2 <;> rw [hr] at h <;>
        cases hl : g._locks <;> rw [hl] at h <;>
        cases initRes <;> cases acq <;>
        simp_all [lockAndRead] <;>
        (obtain ⟨h1, h2, h3⟩ := h; subst h3; simp)
  · intro o2 tr h
    unfold Grid.remove at h
    by_cases hid : idTruthy o._id = false
    · rw [if_pos hid] at h
      exact absurd h (by simp)
    · rw [if_neg hid] at h
      rcases hr : rootMismatchCheck g o with _ | e2 <;> rw [hr] at h <;>
        cases hl : g._locks <;> rw [hl] at h <;>
        cases initRes <;> cases acq <;> cases unlinkRes <;>
        simp_all [lockAndRemove] <;>
        (obtain ⟨h1, h2⟩ := h; subst h2; simp)

/-- C1 witness: a timed-out write acquisition on the concrete grid calls
back with a null error and a null stream. -/
theorem null_null_iff_timedOut_witness :
    grid0.createWriteStream opts0 InitOutcome.ready AcquireOutcome.timedOut
      = .ok (setRoot grid0 opts0, [], ⟨none, none, none⟩) ∧
    (((⟨none, none, none⟩ : StreamCb).error = none ∧
        (⟨none, none, none⟩ : StreamCb).stream = none) ↔
      ((grid0._locks = true ∨ InitOutcome.ready = InitOutcome.ready) ∧
        AcquireOutcome.timedOut = AcquireOutcome.timedOut)) :=
  ⟨rfl,
   (null_null_iff_timedOut grid0 opts0 InitOutcome.ready
      AcquireOutcome.timedOut (.ok ())).1 (setRoot grid0 opts0) []
      ⟨none, none, none⟩ rfl⟩

end GridFSLockingStream
